import Mathlib

/-!
Verification of the email-buddy bulk dispatch engine.

This file is a shallow embedding of the dispatch core of the repository:

* `replacePlaceholders` embeds the function of the same name in
  `supabase/functions/send-bulk-emails/index.ts` (lines 207-213).  The
  JavaScript `text.replace(/token/g, value)` chain is modelled by
  `replaceStr`, a leftmost, non-overlapping, replace-all on the character
  list of the string (replacements are not rescanned, matching the
  semantics of a global regex replace with a literal pattern).
* `runDeliverabilityCheck` embeds the deliverability check of the campaign
  creation page (src/unnamed/part_001, lines 198-258).
* `dispatch` embeds the HTTP handler of
  `supabase/functions/send-bulk-emails/index.ts` as a pure function from a
  request, a store snapshot, a delivery oracle and an invocation timestamp
  to a response and the updated store.  The store holds the rows the
  handler can touch for the requested `campaign_id`: the campaign row
  fetched by id (`none` models "not found"), the single `smtp_settings`
  row, and the `campaign_recipients` rows of the campaign.  Timestamps
  (`new Date().toISOString()`) are modelled as the `now : Nat` parameter.
  The outcome of `client.send` for a recipient row is an oracle
  `Nat → SendOutcome` indexed by the row id: `ok` models a successful
  send, `errMsg m` models a thrown `Error` with message `m`, and
  `errNonError` models a thrown non-`Error` value.
-/

namespace EmailBuddy

/-- Replace-all with fuel; the fuel is initialised to the length of the
subject string, which suffices because every recursive call shortens the
string.  Mirrors one `.replace(/pat/g, repl)` step. -/
def replaceFuel (pat repl : List Char) : Nat → List Char → List Char
  | _, [] => []
  | 0, s => s
  | fuel + 1, c :: rest =>
    if pat ≠ [] ∧ pat.isPrefixOf (c :: rest) = true then
      repl ++ replaceFuel pat repl fuel ((c :: rest).drop pat.length)
    else
      c :: replaceFuel pat repl fuel rest

/-- `replaceStr s pat repl` models the JavaScript
`s.replace(/pat/g, repl)` for a literal pattern `pat`. -/
def replaceStr (s pat repl : String) : String :=
  ⟨replaceFuel pat.data repl.data s.data.length s.data⟩

/-- The `Contact` interface of `send-bulk-emails/index.ts` (lines 15-21):
`email` is a plain string, the other fields are nullable. -/
structure Contact where
  id : String
  email : String
  first_name : Option String
  last_name : Option String
  company : Option String
deriving DecidableEq

/-- `x || ""` on a nullable string field. -/
def orEmpty (x : Option String) : String := x.getD ""

/-- `replacePlaceholders` from `send-bulk-emails/index.ts` lines 207-213:
the four chained global replaces, in source order.  Note that
`\x7b\x7bfull_name\x7d\x7d` is not among the handled tokens. -/
def replacePlaceholders (text : String) (contact : Contact) : String :=
  replaceStr
    (replaceStr
      (replaceStr
        (replaceStr text "\x7b\x7bfirst_name\x7d\x7d" (orEmpty contact.first_name))
        "\x7b\x7blast_name\x7d\x7d" (orEmpty contact.last_name))
      "\x7b\x7bemail\x7d\x7d" (orEmpty contact.email))
    "\x7b\x7bcompany\x7d\x7d" (orEmpty contact.company)

/-- An email template row: `subject` and `html_content`. -/
structure Template where
  subject : String
  html_content : String
deriving DecidableEq

/-- `'warning' | 'error'` of a deliverability issue. -/
inductive IssueType where
  | warning
  | error
deriving DecidableEq

/-- One entry of the deliverability issue list. -/
structure DeliverabilityIssue where
  type : IssueType
  message : String
deriving DecidableEq

/-- Substring containment on character lists: `sub` occurs contiguously. -/
def infixOfChars (sub : List Char) : List Char → Bool
  | [] => sub.isEmpty
  | c :: rest => sub.isPrefixOf (c :: rest) || infixOfChars sub rest

/-- JavaScript `s.includes(sub)`: substring containment, case sensitive. -/
def includes (s sub : String) : Bool :=
  infixOfChars sub.data s.data

/-- JavaScript `s.toLowerCase()`, modelled character-wise. -/
def lowerStr (s : String) : String :=
  ⟨s.data.map Char.toLower⟩

/-- The spam-trigger lexicon of `runDeliverabilityCheck`
(src/unnamed/part_001 line 206). -/
def spamWords : List String :=
  ["free", "winner", "click here", "act now", "limited time", "urgent"]

/-- `runDeliverabilityCheck` from src/unnamed/part_001 lines 198-258 as a
pure function of the selected template (`templates.find` may fail, hence
`Option`), the recipient count and the SMTP password state.  The simulated
delay and the `setState` calls carry no information and are dropped; the
returned value is the assembled issue list. -/
def runDeliverabilityCheck (template : Option Template) (recipientCount : Nat)
    (smtpPassword : String) : List DeliverabilityIssue :=
  (match template with
   | some t =>
     let content := lowerStr (t.subject ++ " " ++ t.html_content)
     ((spamWords.filter fun w => includes content w).map fun w =>
        ⟨IssueType.warning, "Template contains potential spam trigger word: \"" ++ w ++ "\""⟩)
     ++ (if includes t.html_content "unsubscribe" = true then []
         else [⟨IssueType.warning, "Consider adding an unsubscribe link for compliance"⟩])
     ++ (if t.subject.length > 60 then
           [⟨IssueType.warning, "Subject line is longer than 60 characters (may be truncated)"⟩]
         else [])
   | none => [])
  ++ (if recipientCount > 500 then
        [⟨IssueType.warning,
          "Sending to " ++ toString recipientCount ++ " recipients. Consider using slow-send settings."⟩]
      else [])
  ++ (if smtpPassword = "" then
        [⟨IssueType.error, "SMTP password is required to send emails"⟩]
      else [])

/-- The missing-unsubscribe warning entry, as pushed by the source. -/
def unsubIssue : DeliverabilityIssue :=
  ⟨IssueType.warning, "Consider adding an unsubscribe link for compliance"⟩

/-- Campaign `status` values (DB enum / spec section 3). -/
inductive CampaignStatus where
  | draft
  | scheduled
  | sending
  | paused
  | completed
  | failed
deriving DecidableEq

/-- CampaignRecipient `status` values. -/
inductive RecipientStatus where
  | pending
  | sent
  | failed
  | opened
  | clicked
  | bounced
deriving DecidableEq

/-- The campaign row joined with its template, with the fields the handler
reads or writes. -/
structure Campaign where
  status : CampaignStatus
  started_at : Option Nat
  completed_at : Option Nat
  sent_count : Nat
  failed_count : Nat
  total_recipients : Nat
  email_templates : Template
deriving DecidableEq

/-- One `campaign_recipients` row joined with its contact. -/
structure CampaignRecipient where
  id : Nat
  status : RecipientStatus
  sent_at : Option Nat
  error_message : Option String
  contact : Contact
deriving DecidableEq

/-- The `smtp_settings` row (password never stored). -/
structure SmtpSettings where
  host : String
  port : Nat
  username : String
  use_tls : Bool
  from_name : String
  from_email : String
deriving DecidableEq

/-- The store rows visible to one dispatch invocation: the campaign row
fetched by the requested id (`none` models "Campaign not found"), the
single `smtp_settings` row, and the recipient rows of the campaign. -/
structure Store where
  campaign : Option Campaign
  smtp : Option SmtpSettings
  recipients : List CampaignRecipient
deriving DecidableEq

/-- The parsed request body; `none` models an absent field. -/
structure BulkEmailRequest where
  campaign_id : Option String
  smtp_password : Option String
deriving DecidableEq

/-- JavaScript falsiness of an optional string: absent, null or empty. -/
def falsy : Option String → Bool
  | none => true
  | some s => decide (s = "")

/-- Outcome of `client.send` for one recipient: success, a thrown `Error`
with message `m`, or a thrown non-`Error` value. -/
inductive SendOutcome where
  | ok
  | errMsg (m : String)
  | errNonError

/-- The JSON responses the handler can produce: an error response with an
HTTP status, the no-pending-recipients success response (which carries only
`message` and `sent`), or the batch success response. -/
inductive DispatchResponse where
  | httpError (status : Nat) (error : String)
  | noPendingResp (message : String) (sent : Nat)
  | batchResp (sent : Nat) (failed : Nat) (remaining : Nat) (message : String)
deriving DecidableEq

/-- The recipient-row update on a successful send (index.ts lines 137-140). -/
def markSent (rid : Nat) (now : Nat) (rows : List CampaignRecipient) :
    List CampaignRecipient :=
  rows.map fun q =>
    if q.id = rid then { q with status := RecipientStatus.sent, sent_at := some now } else q

/-- The recipient-row update on a failed send (index.ts lines 151-157). -/
def markFailed (rid : Nat) (msg : String) (rows : List CampaignRecipient) :
    List CampaignRecipient :=
  rows.map fun q =>
    if q.id = rid then { q with status := RecipientStatus.failed, error_message := some msg } else q

/-- The per-recipient loop of the handler (index.ts lines 121-161): for
each claimed recipient render the template, attempt delivery, and mark the
row `sent` or `failed`, accumulating the in-memory counters.  A failure is
not retried and does not abort the loop. -/
def processBatch (template : Template) (outcome : Nat → SendOutcome) (now : Nat) :
    List CampaignRecipient → List CampaignRecipient → Nat → Nat →
      Nat × Nat × List CampaignRecipient
  | [], rows, sentCount, failedCount => (sentCount, failedCount, rows)
  | r :: rest, rows, sentCount, failedCount =>
    let _subject := replacePlaceholders template.subject r.contact
    let _html := replacePlaceholders template.html_content r.contact
    match outcome r.id with
    | SendOutcome.ok =>
        processBatch template outcome now rest (markSent r.id now rows) (sentCount + 1) failedCount
    | SendOutcome.errMsg m =>
        processBatch template outcome now rest (markFailed r.id m rows) sentCount (failedCount + 1)
    | SendOutcome.errNonError =>
        processBatch template outcome now rest
          (markFailed r.id "Unknown error" rows) sentCount (failedCount + 1)

/-- The batch claim (index.ts lines 71-76): the `pending` rows of the
campaign, limited to 50. -/
def claimedBatch (rows : List CampaignRecipient) : List CampaignRecipient :=
  (rows.filter fun r => decide (r.status = RecipientStatus.pending)).take 50

/-- The pending-recipient count of a row list (the `count: "exact"` query
of index.ts lines 181-185). -/
def pendingLen (rows : List CampaignRecipient) : Nat :=
  rows.countP fun r => decide (r.status = RecipientStatus.pending)

/-- The pending-recipient count of the store. -/
def pendingCount (s : Store) : Nat :=
  pendingLen s.recipients

/-- The dispatch handler of `send-bulk-emails/index.ts` (the `serve`
callback, lines 23-205) as a pure step function.  Control flow follows the
source exactly: request validation, campaign fetch, SMTP-settings fetch,
batch claim, the empty-batch completion branch, the status update to
`sending`, the per-recipient loop, the read-modify-write counter update,
and the remaining-pending recount. -/
def dispatch (req : BulkEmailRequest) (store : Store) (outcome : Nat → SendOutcome)
    (now : Nat) : DispatchResponse × Store :=
  if falsy req.campaign_id || falsy req.smtp_password then
    (DispatchResponse.httpError 400 "Missing campaign_id or smtp_password", store)
  else
    match store.campaign with
    | none => (DispatchResponse.httpError 404 "Campaign not found", store)
    | some campaign =>
      match store.smtp with
      | none => (DispatchResponse.httpError 400 "SMTP settings not configured", store)
      | some _smtpSettings =>
        let recipients := claimedBatch store.recipients
        if recipients.isEmpty then
          let campaign' :=
            { campaign with
                status := CampaignStatus.completed, completed_at := some now }
          (DispatchResponse.noPendingResp "No pending recipients" 0,
           { store with campaign := some campaign' })
        else
          let campaign₁ :=
            { campaign with
                status := CampaignStatus.sending,
                started_at := some (campaign.started_at.getD now) }
          let res := processBatch campaign.email_templates outcome now recipients
            store.recipients 0 0
          let sentCount := res.1
          let failedCount := res.2.1
          let rows := res.2.2
          let campaign₂ :=
            { campaign₁ with
                sent_count := campaign₁.sent_count + sentCount,
                failed_count := campaign₁.failed_count + failedCount }
          let remaining := pendingLen rows
          let message :=
            if remaining > 0 then "Batch completed, more recipients pending"
            else "All emails sent"
          (DispatchResponse.batchResp sentCount failedCount remaining message,
           { store with campaign := some campaign₂, recipients := rows })

/-- The campaign update of the empty-claim branch (index.ts lines 87-90):
status to `completed` and a fresh `completed_at` stamp. -/
def completeCampaign (c : Campaign) (now : Nat) : Campaign :=
  { c with status := CampaignStatus.completed, completed_at := some now }

/-- The cumulative campaign update of the batch branch (index.ts lines
99-102 and 172-178): status to `sending`, `started_at` kept when present,
and the in-memory batch counts added to the persisted counters. -/
def sendingCampaign (c : Campaign) (now : Nat) (sentC failedC : Nat) : Campaign :=
  { c with
      status := CampaignStatus.sending,
      started_at := some (c.started_at.getD now),
      sent_count := c.sent_count + sentC,
      failed_count := c.failed_count + failedC }

/-- The `(sentCount, failedCount, rows)` result of the batch loop run by
one dispatch invocation over the claimed batch. -/
def batchResult (c : Campaign) (store : Store) (outcome : Nat → SendOutcome)
    (now : Nat) : Nat × Nat × List CampaignRecipient :=
  processBatch c.email_templates outcome now (claimedBatch store.recipients)
    store.recipients 0 0

/-- The row transformation a recipient undergoes when its send is
attempted, by outcome. -/
def applyOutcome (q : CampaignRecipient) (o : SendOutcome) (now : Nat) :
    CampaignRecipient :=
  match o with
  | SendOutcome.ok => { q with status := RecipientStatus.sent, sent_at := some now }
  | SendOutcome.errMsg m => { q with status := RecipientStatus.failed, error_message := some m }
  | SendOutcome.errNonError =>
      { q with status := RecipientStatus.failed, error_message := some "Unknown error" }

/-- Apply the per-recipient outcomes to every row whose id is in `ids`,
leaving all other rows untouched. -/
def applyBatch (ids : List Nat) (outcome : Nat → SendOutcome) (now : Nat)
    (rows : List CampaignRecipient) : List CampaignRecipient :=
  rows.map fun q => if q.id ∈ ids then applyOutcome q (outcome q.id) now else q

/-- One external invocation of the dispatch endpoint. -/
structure CallIn where
  req : BulkEmailRequest
  outcome : Nat → SendOutcome
  now : Nat

/-- Run a sequence of dispatch invocations, threading the store. -/
def runCalls (init : Store) (calls : List CallIn) : Store :=
  calls.foldl (fun s c => (dispatch c.req s c.outcome c.now).2) init

/-- Dispatch invariant: recipient ids are distinct and the persisted
counters plus the pending rows account for exactly `total`, which is the
campaign's `total_recipients` snapshot. -/
def Inv (total : Nat) (s : Store) : Prop :=
  (s.recipients.map fun r => r.id).Nodup ∧
  ∃ c, s.campaign = some c ∧ c.total_recipients = total ∧
    c.sent_count + c.failed_count + pendingCount s = total

/-! Concrete inputs used by witnesses and counterexamples. -/

/-- A contact with only a first name. -/
def annContact : Contact := ⟨"ct1", "ann@example.com", some "Ann", none, none⟩

/-- A contact with no names at all. -/
def noNameContact : Contact := ⟨"ct2", "x@example.com", none, none, none⟩

/-- A contact with both name parts present. -/
def johnContact : Contact := ⟨"ct3", "john@example.com", some "John", some "Doe", none⟩

/-- A minimal template. -/
def sampleTpl : Template := ⟨"Hello", "Body"⟩

/-- A template whose body has a capitalised unsubscribe link. -/
def capsUnsubTpl : Template := ⟨"Greetings", "Please Unsubscribe here"⟩

/-- A populated `smtp_settings` row. -/
def smtpRow : SmtpSettings := ⟨"smtp.example.com", 587, "user", true, "From", "from@example.com"⟩

/-- A well-formed request body. -/
def validReq : BulkEmailRequest := ⟨some "cid-1", some "pw"⟩

/-- A request body whose `campaign_id` is absent. -/
def noIdReq : BulkEmailRequest := ⟨none, some "pw"⟩

/-- Delivery oracle: every send succeeds. -/
def okOracle : Nat → SendOutcome := fun _ => SendOutcome.ok

/-- Delivery oracle: every send throws an `Error` with an empty message. -/
def emptyErrOracle : Nat → SendOutcome := fun _ => SendOutcome.errMsg ""

/-- Delivery oracle: row 2 is rejected by the transport, the rest succeed. -/
def midFailOracle : Nat → SendOutcome := fun rid =>
  if rid = 2 then SendOutcome.errMsg "550 rejected" else SendOutcome.ok

/-- An already-completed campaign (`completed_at` stamped at 5). -/
def completedCampaign : Campaign :=
  ⟨CampaignStatus.completed, some 1, some 5, 1, 0, 1, sampleTpl⟩

/-- A recipient row already marked sent. -/
def sentRow : CampaignRecipient := ⟨1, RecipientStatus.sent, some 2, none, noNameContact⟩

/-- A store holding a completed campaign with no pending rows. -/
def completedStore : Store := ⟨some completedCampaign, some smtpRow, [sentRow]⟩

/-- A paused campaign that has not finished sending. -/
def pausedCampaign : Campaign :=
  ⟨CampaignStatus.paused, some 1, none, 0, 0, 1, sampleTpl⟩

/-- A pending recipient row with id 7. -/
def pendingRow7 : CampaignRecipient := ⟨7, RecipientStatus.pending, none, none, noNameContact⟩

/-- A store holding a paused campaign with one pending row. -/
def pausedStore : Store := ⟨some pausedCampaign, some smtpRow, [pendingRow7]⟩

/-- A draft campaign with one pending recipient. -/
def draftCampaign : Campaign :=
  ⟨CampaignStatus.draft, none, none, 0, 0, 1, sampleTpl⟩

/-- A store whose `smtp_settings` table is empty. -/
def noSmtpStore : Store := ⟨some draftCampaign, none, [pendingRow7]⟩

/-- A store where the requested campaign does not exist. -/
def noCampaignStore : Store := ⟨none, some smtpRow, []⟩

/-- A pending recipient row with id 1. -/
def pendingRow1 : CampaignRecipient := ⟨1, RecipientStatus.pending, none, none, annContact⟩

/-- A pending recipient row with id 2. -/
def pendingRow2 : CampaignRecipient := ⟨2, RecipientStatus.pending, none, none, noNameContact⟩

/-- A pending recipient row with id 3. -/
def pendingRow3 : CampaignRecipient := ⟨3, RecipientStatus.pending, none, none, johnContact⟩

/-- A store with one pending recipient on a campaign being sent. -/
def oneRowStore : Store :=
  ⟨some ⟨CampaignStatus.sending, some 1, none, 0, 0, 1, sampleTpl⟩, some smtpRow, [pendingRow1]⟩

/-- A store with three pending recipients. -/
def threeRowStore : Store :=
  ⟨some ⟨CampaignStatus.draft, none, none, 0, 0, 3, sampleTpl⟩, some smtpRow,
   [pendingRow1, pendingRow2, pendingRow3]⟩

/-- A fresh two-recipient campaign, counters zero, everything pending. -/
def freshStore : Store :=
  ⟨some ⟨CampaignStatus.draft, none, none, 0, 0, 2, sampleTpl⟩, some smtpRow,
   [pendingRow1, pendingRow2]⟩

/-- One all-successful dispatch invocation at time 5. -/
def oneOkCall : List CallIn := [⟨validReq, okOracle, 5⟩]

/-- A completed campaign stamped at 3, used to exhibit re-stamping. -/
def completedCampaign3 : Campaign :=
  ⟨CampaignStatus.completed, some 1, some 3, 2, 0, 2, sampleTpl⟩

/-- A store holding `completedCampaign3` and two sent rows. -/
def completedStore3 : Store :=
  ⟨some completedCampaign3, some smtpRow,
   [sentRow, ⟨2, RecipientStatus.sent, some 2, none, annContact⟩]⟩

/-! Helper lemmas about the batch loop. -/

theorem applyOutcome_id (q : CampaignRecipient) (o : SendOutcome) (now : Nat) :
    (applyOutcome q o now).id = q.id := by
  cases o <;> rfl

theorem applyOutcome_not_pending (q : CampaignRecipient) (o : SendOutcome) (now : Nat) :
    (applyOutcome q o now).status ≠ RecipientStatus.pending := by
  cases o <;> simp [applyOutcome]

theorem applyBatch_nil (outcome : Nat → SendOutcome) (now : Nat)
    (rows : List CampaignRecipient) : applyBatch [] outcome now rows = rows := by
  simp [applyBatch]

/-- Marking one row by id and then applying a batch over the remaining ids
equals applying the batch over all the ids, provided the marked id is not
among the remaining ones. -/
theorem applyBatch_step (outcome : Nat → SendOutcome) (now : Nat) (ids : List Nat)
    (rid : Nat) (hrid : rid ∉ ids) (g : CampaignRecipient → CampaignRecipient)
    (hg : ∀ q, g q = if q.id = rid then applyOutcome q (outcome rid) now else q)
    (rows : List CampaignRecipient) :
    applyBatch ids outcome now (rows.map g) = applyBatch (rid :: ids) outcome now rows := by
  unfold applyBatch
  rw [List.map_map]
  congr 1
  funext q
  simp only [Function.comp_apply, hg q]
  by_cases hq : q.id = rid
  · simp [hq, applyOutcome_id, hrid]
  · simp [hq, List.mem_cons]

/-- The rows produced by the batch loop: every row whose id was claimed
gets its delivery outcome applied, every other row is untouched. -/
theorem processBatch_rows (t : Template) (outcome : Nat → SendOutcome) (now : Nat)
    (claimed : List CampaignRecipient) :
    ∀ (rows : List CampaignRecipient) (sc fc : Nat),
      (claimed.map fun r => r.id).Nodup →
      (processBatch t outcome now claimed rows sc fc).2.2 =
        applyBatch (claimed.map fun r => r.id) outcome now rows := by
  induction claimed with
  | nil =>
    intro rows sc fc _
    simp [processBatch, applyBatch]
  | cons r rest ih =>
    intro rows sc fc hnd
    simp only [List.map_cons, List.nodup_cons] at hnd
    obtain ⟨hr, hnd'⟩ := hnd
    simp only [processBatch]
    cases ho : outcome r.id with
    | ok =>
      rw [ih (markSent r.id now rows) (sc + 1) fc hnd']
      rw [markSent, applyBatch_step outcome now _ r.id hr _
        (fun q => by rw [ho]; rfl) rows, List.map_cons]
    | errMsg m =>
      rw [ih (markFailed r.id m rows) sc (fc + 1) hnd']
      rw [markFailed, applyBatch_step outcome now _ r.id hr _
        (fun q => by rw [ho]; rfl) rows, List.map_cons]
    | errNonError =>
      rw [ih (markFailed r.id "Unknown error" rows) sc (fc + 1) hnd']
      rw [markFailed, applyBatch_step outcome now _ r.id hr _
        (fun q => by rw [ho]; rfl) rows, List.map_cons]

/-- The two in-memory counters of the batch loop add up to the number of
claimed recipients: every claimed recipient is counted exactly once,
whether it succeeded or failed. -/
theorem processBatch_counts (t : Template) (outcome : Nat → SendOutcome) (now : Nat)
    (claimed : List CampaignRecipient) :
    ∀ (rows : List CampaignRecipient) (sc fc : Nat),
      (processBatch t outcome now claimed rows sc fc).1 +
        (processBatch t outcome now claimed rows sc fc).2.1 =
        sc + fc + claimed.length := by
  induction claimed with
  | nil =>
    intro rows sc fc
    simp [processBatch]
  | cons r rest ih =>
    intro rows sc fc
    simp only [processBatch, List.length_cons]
    cases outcome r.id <;> rw [ih] <;> omega

theorem applyBatch_ids (ids : List Nat) (outcome : Nat → SendOutcome) (now : Nat)
    (rows : List CampaignRecipient) :
    ((applyBatch ids outcome now rows).map fun r => r.id) = rows.map fun r => r.id := by
  unfold applyBatch
  rw [List.map_map]
  congr 1
  funext q
  by_cases hq : q.id ∈ ids <;> simp [hq, applyOutcome_id]

/-- A row is pending after a batch exactly when it was pending and its id
was not claimed. -/
theorem pendingLen_applyBatch (ids : List Nat) (outcome : Nat → SendOutcome) (now : Nat)
    (rows : List CampaignRecipient) :
    pendingLen (applyBatch ids outcome now rows) =
      rows.countP fun q =>
        decide (q.status = RecipientStatus.pending) && !(decide (q.id ∈ ids)) := by
  induction rows with
  | nil => rfl
  | cons q rest ih =>
    have hhead :
        decide ((if q.id ∈ ids then applyOutcome q (outcome q.id) now else q).status
            = RecipientStatus.pending)
          = (decide (q.status = RecipientStatus.pending) && !(decide (q.id ∈ ids))) := by
      by_cases hq : q.id ∈ ids
      · simp [hq, applyOutcome_not_pending]
      · simp [hq]
    simp only [applyBatch, List.map_cons, pendingLen, List.countP_cons] at *
    rw [ih, hhead]

/-- Counting a conjunction equals counting the second conjunct over the
filter by the first. -/
theorem countP_and_filter (p q : CampaignRecipient → Bool) :
    ∀ rows : List CampaignRecipient,
      rows.countP (fun a => p a && q a) = (rows.filter p).countP q := by
  intro rows
  induction rows with
  | nil => rfl
  | cons a rest ih =>
    by_cases hp : p a
    · simp [List.countP_cons, List.filter_cons, hp, ih]
    · simp [List.countP_cons, List.filter_cons, hp, ih]

/-- Over a list with distinct ids, the rows whose id is outside the ids of
the `k`-prefix are exactly the rows beyond the prefix. -/
theorem countP_not_mem_take (L : List CampaignRecipient) (k : Nat)
    (hnd : (L.map fun r => r.id).Nodup) :
    L.countP (fun q => !(decide (q.id ∈ (L.take k).map fun r => r.id)))
      + (L.take k).length = L.length := by
  set T := L.take k with hT
  have hsplit : L = T ++ L.drop k := by
    rw [hT, List.take_append_drop]
  have hdisj : ∀ a ∈ L.drop k, a.id ∉ T.map fun r => r.id := by
    intro a ha hmem
    rw [hsplit, List.map_append, List.nodup_append] at hnd
    exact hnd.2.2 hmem (List.mem_map_of_mem _ ha)
  have h1 : T.countP (fun q => !(decide (q.id ∈ T.map fun r => r.id))) = 0 := by
    rw [List.countP_eq_zero]
    intro a ha
    simp [List.mem_map_of_mem _ ha]
  have h2 : (L.drop k).countP (fun q => !(decide (q.id ∈ T.map fun r => r.id)))
      = (L.drop k).length := by
    rw [List.countP_eq_length]
    intro a ha
    simp [hdisj a ha]
  conv_lhs => rw [hsplit]
  rw [List.countP_append, h1, h2]
  have hlt : T.length = min k L.length := by rw [hT, List.length_take]
  have hld : (L.drop k).length = L.length - k := by rw [List.length_drop]
  omega

/-- Claimed ids are distinct whenever the store's row ids are. -/
theorem claimedBatch_nodup (rows : List CampaignRecipient)
    (hnd : (rows.map fun r => r.id).Nodup) :
    ((claimedBatch rows).map fun r => r.id).Nodup := by
  apply hnd.sublist
  apply List.Sublist.map
  exact (List.take_sublist _ _).trans (List.filter_sublist _)

/-- The batch claims `min 50 pending` rows. -/
theorem claimedBatch_length (rows : List CampaignRecipient) :
    (claimedBatch rows).length = min 50 (pendingLen rows) := by
  rw [claimedBatch, List.length_take, pendingLen, List.countP_eq_length_filter]

/-- Net effect of one full batch on the pending count: it drops by exactly
the number of claimed rows. -/
theorem pendingLen_after_batch (outcome : Nat → SendOutcome) (now : Nat)
    (rows : List CampaignRecipient) (hnd : (rows.map fun r => r.id).Nodup) :
    pendingLen (applyBatch ((claimedBatch rows).map fun r => r.id) outcome now rows)
      + (claimedBatch rows).length = pendingLen rows := by
  rw [pendingLen_applyBatch]
  rw [countP_and_filter (fun q => decide (q.status = RecipientStatus.pending))
    (fun q => !(decide (q.id ∈ (claimedBatch rows).map fun r => r.id))) rows]
  have hnd' : (((rows.filter fun r => decide (r.status = RecipientStatus.pending)).map
      fun r => r.id)).Nodup := by
    apply hnd.sublist
    exact List.Sublist.map _ (List.filter_sublist _)
  have h := countP_not_mem_take
    (rows.filter fun r => decide (r.status = RecipientStatus.pending)) 50 hnd'
  conv_rhs => rw [pendingLen, List.countP_eq_length_filter]
  simpa [claimedBatch, List.countP_eq_length_filter] using h

/-! Branch characterizations of the dispatch handler. -/

/-- Request validation: a falsy `campaign_id` or `smtp_password` is
rejected with HTTP 400 before anything is read or written. -/
theorem dispatch_invalid (req : BulkEmailRequest) (store : Store)
    (outcome : Nat → SendOutcome) (now : Nat)
    (h : falsy req.campaign_id = true ∨ falsy req.smtp_password = true) :
    dispatch req store outcome now =
      (DispatchResponse.httpError 400 "Missing campaign_id or smtp_password", store) := by
  unfold dispatch
  rcases h with h | h <;> simp [h]

/-- Campaign lookup failure: HTTP 404, store untouched. -/
theorem dispatch_no_campaign (req : BulkEmailRequest) (store : Store)
    (outcome : Nat → SendOutcome) (now : Nat)
    (hv1 : falsy req.campaign_id = false) (hv2 : falsy req.smtp_password = false)
    (hc : store.campaign = none) :
    dispatch req store outcome now =
      (DispatchResponse.httpError 404 "Campaign not found", store) := by
  unfold dispatch
  rw [hv1, hv2, hc]
  rfl

/-- SMTP settings lookup failure: HTTP 400, store untouched. -/
theorem dispatch_no_smtp (req : BulkEmailRequest) (store : Store)
    (outcome : Nat → SendOutcome) (now : Nat) (c : Campaign)
    (hv1 : falsy req.campaign_id = false) (hv2 : falsy req.smtp_password = false)
    (hc : store.campaign = some c) (hs : store.smtp = none) :
    dispatch req store outcome now =
      (DispatchResponse.httpError 400 "SMTP settings not configured", store) := by
  unfold dispatch
  rw [hv1, hv2, hc, hs]
  rfl

/-- The empty-claim branch: the campaign is stamped `completed` with
`completed_at := now` (unconditionally), recipient rows are untouched, and
the no-pending response is returned. -/
theorem dispatch_nopending (req : BulkEmailRequest) (store : Store)
    (outcome : Nat → SendOutcome) (now : Nat) (c : Campaign) (st : SmtpSettings)
    (hv1 : falsy req.campaign_id = false) (hv2 : falsy req.smtp_password = false)
    (hc : store.campaign = some c) (hs : store.smtp = some st)
    (hemp : (claimedBatch store.recipients).isEmpty = true) :
    dispatch req store outcome now =
      (DispatchResponse.noPendingResp "No pending recipients" 0,
       { store with campaign := some (completeCampaign c now) }) := by
  unfold dispatch
  rw [hv1, hv2, hc, hs]
  simp [hemp, completeCampaign]

/-- The batch branch: the campaign goes to `sending`, `started_at` is kept
if present, counters get the in-memory batch counts added, the rows become
the processed rows, and the batch response is returned. -/
theorem dispatch_batch (req : BulkEmailRequest) (store : Store)
    (outcome : Nat → SendOutcome) (now : Nat) (c : Campaign) (st : SmtpSettings)
    (hv1 : falsy req.campaign_id = false) (hv2 : falsy req.smtp_password = false)
    (hc : store.campaign = some c) (hs : store.smtp = some st)
    (hne : (claimedBatch store.recipients).isEmpty = false) :
    dispatch req store outcome now =
      (DispatchResponse.batchResp (batchResult c store outcome now).1
        (batchResult c store outcome now).2.1
        (pendingLen (batchResult c store outcome now).2.2)
        (if pendingLen (batchResult c store outcome now).2.2 > 0 then
          "Batch completed, more recipients pending" else "All emails sent"),
       { store with
          campaign := some (sendingCampaign c now (batchResult c store outcome now).1
            (batchResult c store outcome now).2.1),
          recipients := (batchResult c store outcome now).2.2 }) := by
  unfold dispatch
  rw [hv1, hv2, hc, hs]
  simp [hne, batchResult, sendingCampaign]

/-- A campaign with no pending rows claims an empty batch. -/
theorem claimedBatch_empty_of_no_pending (rows : List CampaignRecipient)
    (h : pendingLen rows = 0) : (claimedBatch rows).isEmpty = true := by
  rw [claimedBatch]
  have hfil : (rows.filter fun r => decide (r.status = RecipientStatus.pending)) = [] := by
    rw [← List.length_eq_zero, ← List.countP_eq_length_filter]
    exact h
  simp [hfil]

/-- A campaign with a pending row claims a nonempty batch. -/
theorem claimedBatch_nonempty_of_pending (rows : List CampaignRecipient)
    (h : 0 < pendingLen rows) : (claimedBatch rows).isEmpty = false := by
  have hlen := claimedBatch_length rows
  cases hcb : claimedBatch rows with
  | nil =>
    rw [hcb] at hlen
    simp at hlen
    omega
  | cons a l => rfl

/-- Every dispatch invocation preserves the counter invariant: the
persisted counters plus the still-pending rows always account for the
recipient total. -/
theorem dispatch_preserves_inv (total : Nat) (req : BulkEmailRequest) (store : Store)
    (outcome : Nat → SendOutcome) (now : Nat)
    (h : Inv total store) : Inv total (dispatch req store outcome now).2 := by
  cases hv1 : falsy req.campaign_id with
  | true =>
    rw [dispatch_invalid req store outcome now (Or.inl hv1)]
    exact h
  | false =>
    cases hv2 : falsy req.smtp_password with
    | true =>
      rw [dispatch_invalid req store outcome now (Or.inr hv2)]
      exact h
    | false =>
      obtain ⟨hnd, c, hc, htot, hsum⟩ := h
      cases hs : store.smtp with
      | none =>
        rw [dispatch_no_smtp req store outcome now c hv1 hv2 hc hs]
        exact ⟨hnd, c, hc, htot, hsum⟩
      | some st =>
        cases hemp : (claimedBatch store.recipients).isEmpty with
        | true =>
          rw [dispatch_nopending req store outcome now c st hv1 hv2 hc hs hemp]
          refine ⟨hnd, completeCampaign c now, rfl, ?_, ?_⟩
          · simpa [completeCampaign] using htot
          · simpa [completeCampaign, pendingCount] using hsum
        | false =>
          rw [dispatch_batch req store outcome now c st hv1 hv2 hc hs hemp]
          have hndc := claimedBatch_nodup store.recipients hnd
          have hrows : (batchResult c store outcome now).2.2 =
              applyBatch ((claimedBatch store.recipients).map fun r => r.id)
                outcome now store.recipients := by
            rw [batchResult]
            exact processBatch_rows c.email_templates outcome now
              (claimedBatch store.recipients) store.recipients 0 0 hndc
          have hcnt := processBatch_counts c.email_templates outcome now
            (claimedBatch store.recipients) store.recipients 0 0
          have hpend := pendingLen_after_batch outcome now store.recipients hnd
          constructor
          · show ((batchResult c store outcome now).2.2.map fun r => r.id).Nodup
            rw [hrows, applyBatch_ids]
            exact hnd
          · refine ⟨sendingCampaign c now (batchResult c store outcome now).1
              (batchResult c store outcome now).2.1, rfl, ?_, ?_⟩
            · simpa [sendingCampaign] using htot
            · have hbr : (batchResult c store outcome now).1 + (batchResult c store outcome now).2.1
                  = (claimedBatch store.recipients).length := by
                rw [batchResult]
                simpa using hcnt
              have hpl : pendingLen (batchResult c store outcome now).2.2
                  + (claimedBatch store.recipients).length = pendingLen store.recipients := by
                rw [hrows]
                exact hpend
              simp only [sendingCampaign, pendingCount] at *
              omega

/-- The counter invariant survives any sequence of invocations. -/
theorem runCalls_preserves_inv (total : Nat) (calls : List CallIn) :
    ∀ s : Store, Inv total s → Inv total (runCalls s calls) := by
  induction calls with
  | nil =>
    intro s h
    exact h
  | cons cIn rest ih =>
    intro s h
    exact ih _ (dispatch_preserves_inv total cIn.req s cIn.outcome cIn.now h)

/-! Claim theorems. -/

/-- Claim C1, counterexample: invoking dispatch on an already-completed
campaign does mutate a campaign field — `completed_at` is overwritten with
the invocation time — so the call is not free of campaign mutations as the
claim states (recipient rows are indeed untouched). -/
theorem C1_counterexample :
    (dispatch validReq completedStore okOracle 9).2.recipients = completedStore.recipients ∧
    (dispatch validReq completedStore okOracle 9).2.campaign ≠ completedStore.campaign :=
  ⟨by decide, by decide⟩

/-- Claim C1, amended: dispatch on a completed campaign (with resolvable
SMTP settings and a valid request) mutates no recipient row and no
counter, and returns the success response with `sent = 0` and message
"No pending recipients" (the body carries no `failed`/`remaining`
fields); however it re-writes `status = completed` and re-stamps
`completed_at` with the invocation time. -/
theorem C1_terminal_noop (req : BulkEmailRequest) (store : Store)
    (outcome : Nat → SendOutcome) (now : Nat) (c : Campaign) (st : SmtpSettings)
    (hv1 : falsy req.campaign_id = false) (hv2 : falsy req.smtp_password = false)
    (hc : store.campaign = some c) (hs : store.smtp = some st)
    (hterm : c.status = CampaignStatus.completed)
    (hnp : pendingCount store = 0) :
    (dispatch req store outcome now).1
        = DispatchResponse.noPendingResp "No pending recipients" 0 ∧
    (dispatch req store outcome now).2.recipients = store.recipients ∧
    (dispatch req store outcome now).2.campaign
        = some { c with completed_at := some now } := by
  have hemp := claimedBatch_empty_of_no_pending store.recipients hnp
  rw [dispatch_nopending req store outcome now c st hv1 hv2 hc hs hemp]
  refine ⟨rfl, rfl, ?_⟩
  obtain ⟨cs, csa, cca, csc, cfc, ctr, ctm⟩ := c
  simp only at hterm
  subst hterm
  rfl

/-- Claim C1, witness: the amended statement at a concrete completed
campaign. -/
theorem C1_witness :
    (dispatch validReq completedStore okOracle 9).1
        = DispatchResponse.noPendingResp "No pending recipients" 0 ∧
    (dispatch validReq completedStore okOracle 9).2.recipients = completedStore.recipients ∧
    (dispatch validReq completedStore okOracle 9).2.campaign
        = some { completedCampaign with completed_at := some 9 } :=
  C1_terminal_noop validReq completedStore okOracle 9 completedCampaign smtpRow
    (by decide) (by decide) rfl rfl (by decide) (by decide)

/-- Claim C2, counterexample: dispatch on a paused campaign with one
pending recipient does not return immediately — it claims and sends the
row (marking it `sent`) and transitions the campaign to `sending`. -/
theorem C2_counterexample :
    ((dispatch validReq pausedStore okOracle 4).2.campaign.map fun c => c.status)
        = some CampaignStatus.sending ∧
    ((dispatch validReq pausedStore okOracle 4).2.recipients.map fun r => r.status)
        = [RecipientStatus.sent] :=
  ⟨by decide, by decide⟩

/-- Claim C2, amended: the dispatcher performs no status check at all —
invoked on a paused campaign with pending recipients it proceeds, sets the
campaign status to `sending`, and claims and processes a full batch of
`min 50 pending` recipients. -/
theorem C2_no_pause_guard (req : BulkEmailRequest) (store : Store)
    (outcome : Nat → SendOutcome) (now : Nat) (c : Campaign) (st : SmtpSettings)
    (hv1 : falsy req.campaign_id = false) (hv2 : falsy req.smtp_password = false)
    (hc : store.campaign = some c) (hs : store.smtp = some st)
    (_hp : c.status = CampaignStatus.paused)
    (hpend : 0 < pendingCount store) :
    (∃ c', (dispatch req store outcome now).2.campaign = some c' ∧
        c'.status = CampaignStatus.sending) ∧
    ∃ s f rem m, (dispatch req store outcome now).1 = DispatchResponse.batchResp s f rem m ∧
      s + f = min 50 (pendingCount store) := by
  have hne := claimedBatch_nonempty_of_pending store.recipients hpend
  rw [dispatch_batch req store outcome now c st hv1 hv2 hc hs hne]
  constructor
  · exact ⟨_, rfl, rfl⟩
  · refine ⟨_, _, _, _, rfl, ?_⟩
    have hcnt := processBatch_counts c.email_templates outcome now
      (claimedBatch store.recipients) store.recipients 0 0
    have hlen := claimedBatch_length store.recipients
    simp only [batchResult, pendingCount]
    omega

/-- Claim C2, witness: the amended statement at a concrete paused
campaign with one pending row. -/
theorem C2_witness :
    (∃ c', (dispatch validReq pausedStore okOracle 4).2.campaign = some c' ∧
        c'.status = CampaignStatus.sending) ∧
    ∃ s f rem m, (dispatch validReq pausedStore okOracle 4).1
          = DispatchResponse.batchResp s f rem m ∧
      s + f = min 50 (pendingCount pausedStore) :=
  C2_no_pause_guard validReq pausedStore okOracle 4 pausedCampaign smtpRow
    (by decide) (by decide) rfl rfl (by decide) (by decide)

/-- Claim C3, counterexample: with SMTP settings unresolvable, dispatch
reports the structured error but leaves the campaign in its prior status
`draft` — it does not transition the campaign to `failed` as the claim
requires. -/
theorem C3_counterexample :
    dispatch validReq noSmtpStore okOracle 4
        = (DispatchResponse.httpError 400 "SMTP settings not configured", noSmtpStore) ∧
    (noSmtpStore.campaign.map fun c => c.status) = some CampaignStatus.draft ∧
    CampaignStatus.draft ≠ CampaignStatus.failed :=
  ⟨by decide, by decide, by decide⟩

/-- Claim C3, amended: on every setup failure (missing credentials,
campaign not found, SMTP settings not resolvable) dispatch fails fast with
the corresponding structured error and returns the store completely
unchanged: no recipient row is mutated, and the campaign keeps its prior
status — it is never transitioned to `failed`. -/
theorem C3_no_failed_transition (req : BulkEmailRequest) (store : Store)
    (outcome : Nat → SendOutcome) (now : Nat) :
    ((falsy req.campaign_id = true ∨ falsy req.smtp_password = true) →
      dispatch req store outcome now =
        (DispatchResponse.httpError 400 "Missing campaign_id or smtp_password", store)) ∧
    (store.campaign = none → falsy req.campaign_id = false → falsy req.smtp_password = false →
      dispatch req store outcome now =
        (DispatchResponse.httpError 404 "Campaign not found", store)) ∧
    (∀ c, store.campaign = some c → store.smtp = none →
      falsy req.campaign_id = false → falsy req.smtp_password = false →
      dispatch req store outcome now =
        (DispatchResponse.httpError 400 "SMTP settings not configured", store)) :=
  ⟨fun h => dispatch_invalid req store outcome now h,
   fun hc hv1 hv2 => dispatch_no_campaign req store outcome now hv1 hv2 hc,
   fun c hc hs hv1 hv2 => dispatch_no_smtp req store outcome now c hv1 hv2 hc hs⟩

/-- Claim C3, witness: the three setup-error cases at concrete inputs. -/
theorem C3_witness :
    dispatch noIdReq noSmtpStore okOracle 2
        = (DispatchResponse.httpError 400 "Missing campaign_id or smtp_password", noSmtpStore) ∧
    dispatch validReq noCampaignStore okOracle 2
        = (DispatchResponse.httpError 404 "Campaign not found", noCampaignStore) ∧
    dispatch validReq noSmtpStore okOracle 2
        = (DispatchResponse.httpError 400 "SMTP settings not configured", noSmtpStore) :=
  ⟨(C3_no_failed_transition noIdReq noSmtpStore okOracle 2).1 (Or.inl (by decide)),
   (C3_no_failed_transition validReq noCampaignStore okOracle 2).2.1 rfl (by decide) (by decide),
   (C3_no_failed_transition validReq noSmtpStore okOracle 2).2.2 draftCampaign rfl rfl
     (by decide) (by decide)⟩

/-- Claim C4, counterexample: a transport `Error` whose message is the
empty string is recorded verbatim, so the failed row carries an empty
`error_message`, not a non-empty one as the claim states. -/
theorem C4_counterexample :
    ((dispatch validReq oneRowStore emptyErrOracle 4).2.recipients.map
        fun r => (r.status, r.error_message))
      = [(RecipientStatus.failed, some "")] ∧
    ("" : String).length = 0 :=
  ⟨by decide, rfl⟩

/-- Claim C4, amended: per-recipient failures are isolated. After a batch,
the recipient rows equal the original rows with each claimed row — and
only the claimed rows — updated by its own delivery outcome: success
becomes `sent` with `sent_at` stamped, a thrown `Error` becomes `failed`
with `error_message` equal to the transport error text (possibly empty),
and a non-`Error` throw becomes `failed` with "Unknown error"; a failure
never aborts the batch and every other claimed recipient is still
processed. -/
theorem C4_isolation (req : BulkEmailRequest) (store : Store)
    (outcome : Nat → SendOutcome) (now : Nat) (c : Campaign) (st : SmtpSettings)
    (hv1 : falsy req.campaign_id = false) (hv2 : falsy req.smtp_password = false)
    (hc : store.campaign = some c) (hs : store.smtp = some st)
    (hnd : (store.recipients.map fun r => r.id).Nodup)
    (hne : (claimedBatch store.recipients).isEmpty = false) :
    (dispatch req store outcome now).2.recipients =
      applyBatch ((claimedBatch store.recipients).map fun r => r.id)
        outcome now store.recipients := by
  rw [dispatch_batch req store outcome now c st hv1 hv2 hc hs hne]
  show (batchResult c store outcome now).2.2 = _
  rw [batchResult]
  exact processBatch_rows c.email_templates outcome now (claimedBatch store.recipients)
    store.recipients 0 0 (claimedBatch_nodup store.recipients hnd)

/-- Claim C4, witness: three pending recipients, the middle one rejected
by the transport. -/
theorem C4_witness :
    (dispatch validReq threeRowStore midFailOracle 7).2.recipients =
      applyBatch ((claimedBatch threeRowStore.recipients).map fun r => r.id)
        midFailOracle 7 threeRowStore.recipients :=
  C4_isolation validReq threeRowStore midFailOracle 7
    ⟨CampaignStatus.draft, none, none, 0, 0, 3, sampleTpl⟩ smtpRow
    (by decide) (by decide) rfl rfl (by decide) (by decide)

/-- Claim C5: starting from a fresh campaign (zero counters, every
recipient row pending, distinct row ids, `total_recipients` equal to the
snapshot size), after any sequence of dispatch invocations that ends with
no pending recipients, the persisted counters satisfy
`sent_count + failed_count = total_recipients` exactly. -/
theorem C5_counter_additivity (init : Store) (calls : List CallIn) (c0 : Campaign)
    (h1 : init.campaign = some c0) (h2 : c0.sent_count = 0) (h3 : c0.failed_count = 0)
    (h4 : c0.total_recipients = init.recipients.length)
    (h5 : ∀ r ∈ init.recipients, r.status = RecipientStatus.pending)
    (h6 : (init.recipients.map fun r => r.id).Nodup)
    (h7 : pendingCount (runCalls init calls) = 0) :
    ∃ c, (runCalls init calls).campaign = some c ∧
      c.sent_count + c.failed_count = c.total_recipients ∧
      c.total_recipients = c0.total_recipients := by
  have hinv0 : Inv c0.total_recipients init := by
    refine ⟨h6, c0, h1, rfl, ?_⟩
    have hpc : pendingCount init = init.recipients.length := by
      rw [pendingCount, pendingLen, List.countP_eq_length]
      intro r hr
      simp [h5 r hr]
    omega
  obtain ⟨hnd, c, hc, htot, hsum⟩ :=
    runCalls_preserves_inv c0.total_recipients calls init hinv0
  exact ⟨c, hc, by omega, htot⟩

/-- Claim C5, witness: a fresh two-recipient campaign fully dispatched by
one all-successful call. -/
theorem C5_witness :
    ∃ c, (runCalls freshStore oneOkCall).campaign = some c ∧
      c.sent_count + c.failed_count = c.total_recipients ∧
      c.total_recipients = (2 : Nat) :=
  C5_counter_additivity freshStore oneOkCall
    ⟨CampaignStatus.draft, none, none, 0, 0, 2, sampleTpl⟩
    rfl rfl rfl (by decide) (by decide) (by decide) (by decide)

/-- Claim C6, counterexample: a second dispatch on a campaign whose
`completed_at` is already 3 re-stamps it to the new invocation time 8. -/
theorem C6_counterexample :
    (completedStore3.campaign.map fun c => c.completed_at) = some (some 3) ∧
    ((dispatch validReq completedStore3 okOracle 8).2.campaign.map fun c => c.completed_at)
        = some (some 8) :=
  ⟨by decide, by decide⟩

/-- Claim C6, amended: `completed_at` is stamped with the invocation time
on every dispatch that finds zero pending recipients — including
re-invocations on an already-completed campaign, whose existing
`completed_at` is overwritten rather than preserved. -/
theorem C6_restamp (req : BulkEmailRequest) (store : Store)
    (outcome : Nat → SendOutcome) (now : Nat) (c : Campaign) (st : SmtpSettings)
    (hv1 : falsy req.campaign_id = false) (hv2 : falsy req.smtp_password = false)
    (hc : store.campaign = some c) (hs : store.smtp = some st)
    (hnp : pendingCount store = 0) :
    ((dispatch req store outcome now).2.campaign.map fun x => x.completed_at)
      = some (some now) := by
  have hemp := claimedBatch_empty_of_no_pending store.recipients hnp
  rw [dispatch_nopending req store outcome now c st hv1 hv2 hc hs hemp]
  rfl

/-- Claim C6, witness: the amended statement at the concrete re-invocation
of `C6_counterexample`. -/
theorem C6_witness :
    ((dispatch validReq completedStore3 okOracle 8).2.campaign.map fun x => x.completed_at)
      = some (some 8) :=
  C6_restamp validReq completedStore3 okOracle 8 completedCampaign3 smtpRow
    (by decide) (by decide) rfl rfl (by decide)

/-- Claim C7, counterexample: the send-path renderer does not substitute
`\x7b\x7bfull_name\x7d\x7d` at all — on a contact named John Doe the token
survives verbatim instead of becoming the contact's full name. -/
theorem C7_counterexample :
    replacePlaceholders "\x7b\x7bfull_name\x7d\x7d" johnContact ≠ "John Doe" ∧
    replacePlaceholders "\x7b\x7bfull_name\x7d\x7d" johnContact = "\x7b\x7bfull_name\x7d\x7d" :=
  ⟨by decide, by decide⟩

/-- Claim C7, amended: the send-path renderer supports only
`first_name`, `last_name`, `email` and `company`; `\x7b\x7bfull_name\x7d\x7d`
is left verbatim for every contact — both when the name parts are present
and when both are missing (so neither a full name, nor the empty string,
nor "there" is produced). -/
theorem C7_full_name_verbatim :
    replacePlaceholders "Hello \x7b\x7bfull_name\x7d\x7d!" johnContact
        = "Hello \x7b\x7bfull_name\x7d\x7d!" ∧
    replacePlaceholders "Hello \x7b\x7bfull_name\x7d\x7d!" noNameContact
        = "Hello \x7b\x7bfull_name\x7d\x7d!" :=
  ⟨by decide, by decide⟩

/-- Claim C8: the send-path renderer replaces every occurrence of a
supported token (not only the first), substitutes the empty string for a
null field, and leaves unknown tokens verbatim — the claim's defining
examples hold on the code. -/
theorem C8_substitution :
    replacePlaceholders "Hi \x7b\x7bfirst_name\x7d\x7d \x7b\x7bfirst_name\x7d\x7d!" annContact
        = "Hi Ann Ann!" ∧
    replacePlaceholders "Hi \x7b\x7bfirst_name\x7d\x7d" noNameContact = "Hi " ∧
    replacePlaceholders "Hi \x7b\x7bnickname\x7d\x7d!" annContact
        = "Hi \x7b\x7bnickname\x7d\x7d!" :=
  ⟨by decide, by decide, by decide⟩

/-- Claim C9, counterexample: a body containing "Unsubscribe" (capital U)
contains "unsubscribe" case-insensitively, yet the check still emits the
missing-unsubscribe warning, because the source compares case-sensitively
against the raw `html_content`. -/
theorem C9_counterexample :
    unsubIssue ∈ runDeliverabilityCheck (some capsUnsubTpl) 1 "pw" ∧
    includes (lowerStr capsUnsubTpl.html_content) "unsubscribe" = true :=
  ⟨by decide, by decide⟩

/-- Claim C9, amended: the missing-unsubscribe warning is emitted exactly
when `html_content` does not contain the lowercase substring
"unsubscribe" under a case-SENSITIVE comparison (unlike the spam-word
check, the body is not lowercased first). -/
theorem C9_unsub_case_sensitive (t : Template) (recipientCount : Nat)
    (smtpPassword : String) :
    unsubIssue ∈ runDeliverabilityCheck (some t) recipientCount smtpPassword ↔
      includes t.html_content "unsubscribe" = false := by
  have hspam : ∀ w ∈ spamWords,
      (⟨IssueType.warning,
        "Template contains potential spam trigger word: \"" ++ w ++ "\""⟩ :
          DeliverabilityIssue) ≠ unsubIssue := by
    intro w hw
    fin_cases hw <;> decide
  have hrc :
      (⟨IssueType.warning,
        "Sending to " ++ toString recipientCount
          ++ " recipients. Consider using slow-send settings."⟩ :
            DeliverabilityIssue) ≠ unsubIssue := by
    intro h
    have hm : "Sending to " ++ toString recipientCount
        ++ " recipients. Consider using slow-send settings."
        = "Consider adding an unsubscribe link for compliance" :=
      congrArg DeliverabilityIssue.message h
    have hlen := congrArg String.length hm
    rw [String.length_append, String.length_append] at hlen
    have e1 : ("Sending to " : String).length = 11 := by decide
    have e2 : (" recipients. Consider using slow-send settings." : String).length = 47 := by
      decide
    have e3 : ("Consider adding an unsubscribe link for compliance" : String).length = 50 := by
      decide
    omega
  cases hU : includes t.html_content "unsubscribe" with
  | true =>
    simp only [runDeliverabilityCheck, hU, if_true]
    constructor
    · intro hmem
      exfalso
      simp only [List.append_nil, List.nil_append, List.mem_append, List.mem_map,
        List.mem_filter] at hmem
      rcases hmem with ((⟨w, hw, heq⟩ | hsub) | hrcm) | hpw
      · exact hspam w hw.1 heq
      · by_cases hlen : t.subject.length > 60
        · simp [hlen] at hsub
          exact absurd hsub.symm (by decide)
        · simp [hlen] at hsub
      · by_cases hcnt : recipientCount > 500
        · simp [hcnt] at hrcm
          exact hrc hrcm.symm
        · simp [hcnt] at hrcm
      · by_cases hpwd : smtpPassword = ""
        · simp [hpwd] at hpw
          exact absurd hpw.symm (by decide)
        · simp [hpwd] at hpw
    · intro hfalse
      exact absurd hfalse (by simp)
  | false =>
    simp only [runDeliverabilityCheck, hU]
    constructor
    · intro _
      trivial
    · intro _
      simp [unsubIssue]

/-- Claim C9, witness: the amended statement at the concrete template of
`C9_counterexample`. -/
theorem C9_witness :
    unsubIssue ∈ runDeliverabilityCheck (some capsUnsubTpl) 1 "pw" ↔
      includes capsUnsubTpl.html_content "unsubscribe" = false :=
  C9_unsub_case_sensitive capsUnsubTpl 1 "pw"

/-- Claim C10: a request whose `campaign_id` or `smtp_password` is absent
or empty is rejected up front with HTTP 400 and the fixed error body, and
the store is returned unchanged whatever it contains — no campaign,
recipient row or counter is observed or mutated. -/
theorem C10_request_validation (req : BulkEmailRequest) (store : Store)
    (outcome : Nat → SendOutcome) (now : Nat)
    (h : falsy req.campaign_id = true ∨ falsy req.smtp_password = true) :
    dispatch req store outcome now =
      (DispatchResponse.httpError 400 "Missing campaign_id or smtp_password", store) :=
  dispatch_invalid req store outcome now h

/-- Claim C10, witness: a request with an absent `campaign_id`. -/
theorem C10_witness :
    dispatch noIdReq completedStore okOracle 3 =
      (DispatchResponse.httpError 400 "Missing campaign_id or smtp_password", completedStore) :=
  C10_request_validation noIdReq completedStore okOracle 3 (Or.inl (by decide))

end EmailBuddy
